import Mathlib

/-!
Shallow embedding of `streamlit_gps_checker.py` (alexgasconn/gps-checker).

The script analyses a GPS track: it downsamples the track, queries an
external building service around each retained point, filters buildings by
height and geodesic distance, optionally scores the weather at each point,
and aggregates per-point danger flags into a quality label.

Modelling conventions:
* Python floats are modelled by `ℚ` (the script only compares and does
  arithmetic on finitely many decimal constants, so exact rationals are the
  intended real-number semantics).
* The external services (Overpass building query, Open-Meteo weather) and the
  `geopy` geodesic distance are collaborators outside the script; they are
  modelled as parameters: an environment gives, per point index, the service
  response (or a network error), and `dist` is an arbitrary distance function.
* Python exceptions are modelled with `Except`; the uncaught
  `ZeroDivisionError` that `len(danger_indices) / len(points)` raises on an
  empty point list is modelled by `Except.error`.
-/

namespace GPS

/-- A centroid (`center`) of a building feature, as returned by the service. -/
structure Center where
  lat : ℚ
  lon : ℚ
deriving DecidableEq

/-- The `height` tag of a feature: either a string that `float(...)` parses to
a number, or a string on which `float(...)` raises (`nonNumeric`). -/
inductive HeightAttr where
  | num (h : ℚ)
  | nonNumeric
deriving DecidableEq

/-- The `tags` dictionary of a feature; only the `height` key is consulted. -/
structure Tags where
  height : Option HeightAttr
deriving DecidableEq

/-- One element of the Overpass response: optional `tags`, optional `center`. -/
structure OSMElement where
  tags : Option Tags
  center : Option Center
deriving DecidableEq

/-- The parsed Overpass JSON response: its `elements` list. -/
structure OverpassResp where
  elements : List OSMElement
deriving DecidableEq

/-- An entry of the list built by `buildings_near` (lat, lon, height). -/
structure NearBuilding where
  lat : ℚ
  lon : ℚ
  height : ℚ
deriving DecidableEq

/-- A track point `(latitude, longitude, time)`; `read_gpx_points` keeps only
points with a timestamp, so `time` is always present (modelled as `ℕ`). -/
structure TrackPoint where
  lat : ℚ
  lon : ℚ
  time : ℕ
deriving DecidableEq

/-- The sidebar configuration surface of the script. -/
structure Config where
  radius_m : ℚ
  min_height : ℚ
  skip_downsample : Bool
  add_randomness : Bool
  skip_weather : Bool

/-- The weather fields returned by `get_weather_data` (each nullable). -/
structure WeatherFields where
  clouds : Option ℚ
  precip : Option ℚ
  visibility : Option ℚ
deriving DecidableEq

/-- `downsample` helper: Python `points[::step]` for a positive step, taking
indices `0, step, 2*step, ...`. -/
def pySlice (step : ℕ) : List α → List α
  | [] => []
  | x :: xs => x :: pySlice step (xs.drop (step - 1))
termination_by l => l.length
decreasing_by simp only [List.length_cons, List.length_drop]; omega

/-- Line 24-25: `return points[::step] if step > 1 else points`. -/
def downsample (points : List α) (step : ℕ) : List α :=
  if step > 1 then pySlice step points else points

/-- Lines 34-36 of `overpass_query`: the bounding box
`(lat1, lon1, lat2, lon2)` put into the Overpass query (the network call and
JSON parsing are the external service). -/
def overpass_bbox (lat lon radius_m : ℚ) : ℚ × ℚ × ℚ × ℚ :=
  let radius_deg := radius_m / 111000
  (lat - radius_deg, lon - radius_deg, lat + radius_deg, lon + radius_deg)

/-- The body of the `for b in buildings.get("elements", [])` loop of
`buildings_near` (lines 50-65): at most one appended entry per element; the
bare `except: continue` on a non-numeric height drops the element. `d` is the
geodesic distance function (`geopy.distance.geodesic(...).meters`). -/
def building_entry (d : ℚ × ℚ → ℚ × ℚ → ℚ) (point : ℚ × ℚ)
    (radius height_thresh : ℚ) (b : OSMElement) : Option NearBuilding :=
  match b.tags with
  | none => none
  | some tags =>
    match tags.height with
    | none => none
    | some HeightAttr.nonNumeric => none
    | some (HeightAttr.num h) =>
      if h ≥ height_thresh then
        match b.center with
        | none => none
        | some c =>
          if d point (c.lat, c.lon) ≤ radius then
            some { lat := c.lat, lon := c.lon, height := h }
          else none
      else none

/-- Lines 48-66: `buildings_near(point, buildings, radius, height_thresh)`. -/
def buildings_near (d : ℚ × ℚ → ℚ × ℚ → ℚ) (point : ℚ × ℚ)
    (buildings : OverpassResp) (radius height_thresh : ℚ) : List NearBuilding :=
  buildings.elements.filterMap (building_entry d point radius height_thresh)

/-- Lines 81-87: `estimate_gps_quality(danger_ratio)`. -/
def estimate_gps_quality (r : ℚ) : String :=
  if r > 0.5 then "❌ Baja"
  else if r > 0.2 then "⚠️ Media"
  else "✅ Alta"

/-- All-null weather sample, `{"clouds": None, "precip": None, "visibility": None}`. -/
def allNoneWeather : WeatherFields :=
  { clouds := none, precip := none, visibility := none }

/-- Lines 89-101: `get_weather_data`. The whole network interaction sits in a
`try: ... except: return {None, None, None}`, so a network error is swallowed
and yields the all-null sample; on success the three hourly fields (each
possibly null) are returned. The input is the service outcome. -/
def get_weather_data (resp : Except Unit WeatherFields) : WeatherFields :=
  match resp with
  | Except.ok w => w
  | Except.error _ => allNoneWeather

/-- Lines 103-107: `compute_weather_score(clouds, precip, visibility)`. -/
def compute_weather_score (clouds precip visibility : Option ℚ) : Option ℚ :=
  match clouds, precip, visibility with
  | some c, some p, some v =>
    let score := 100 - (c * 0.3 + p * 5 + (10 - min v 10) * 5)
    some (max 0 (min 100 score))
  | _, _, _ => none

/-- Lines 117-126: stride selection from `skip_downsample` and the raw count. -/
def select_step (skip_downsample : Bool) (n : ℕ) : ℕ :=
  if skip_downsample then 1
  else if n ≤ 300 then 1
  else if n ≤ 1000 then 3
  else if n ≤ 3000 then 7
  else 12

/-- A danger-zone record (lines 154-161): the dict appended to `danger_zones`,
with `num_buildings = len(nearby)` and the weather sample of that point. -/
structure DangerZone where
  index : ℕ
  lat : ℚ
  lon : ℚ
  time : ℕ
  num_buildings : ℕ
  weather : WeatherFields
deriving DecidableEq

/-- The mutable accumulation state of the main loop (lines 132-134 and the
warnings issued on line 164). `danger_indices` is a Python `set`. -/
structure LoopState where
  danger_zones : List DangerZone
  danger_indices : Finset ℕ
  weather_scores : List ℚ
  warnings : List ℕ
deriving DecidableEq

/-- The external world of one run: the geodesic distance function and, for
each loop index, the outcome of the Overpass call (`Except.error` = network
error / bad status / parse failure raised by `overpass_query`) and of the
weather call (`Except.error` = any failure inside `get_weather_data`). -/
structure Env where
  dist : ℚ × ℚ → ℚ × ℚ → ℚ
  overpass : ℕ → Except Unit OverpassResp
  weather : ℕ → Except Unit WeatherFields

/-- One iteration of the loop on lines 140-164, acting on the accumulation
state. The whole body sits in `try: ... except: st.warning(...)`; only the
Overpass call can raise, so on `Except.error` the iteration just records a
warning for this index. Otherwise it filters the buildings, optionally
fetches the weather and appends the (non-null) score, and if `nearby` is
non-empty appends a danger zone and adds the index. -/
def stepPoint (cfg : Config) (env : Env) (s : LoopState) (i : ℕ)
    (pt : TrackPoint) : LoopState :=
  match env.overpass i with
  | Except.error _ => { s with warnings := s.warnings ++ [i] }
  | Except.ok buildings =>
    let nearby :=
      buildings_near env.dist (pt.lat, pt.lon) buildings cfg.radius_m cfg.min_height
    let weather :=
      if cfg.skip_weather then allNoneWeather else get_weather_data (env.weather i)
    let s1 :=
      if cfg.skip_weather then s
      else
        match compute_weather_score weather.clouds weather.precip weather.visibility with
        | some sc => { s with weather_scores := s.weather_scores ++ [sc] }
        | none => s
    if nearby.isEmpty then s1
    else
      { s1 with
        danger_zones := s1.danger_zones ++
          [{ index := i, lat := pt.lat, lon := pt.lon, time := pt.time,
             num_buildings := nearby.length, weather := weather }],
        danger_indices := insert i s1.danger_indices }

/-- The `for i, (lat, lon, t) in enumerate(points)` loop (lines 140-164). -/
def runLoop (cfg : Config) (env : Env) : List (ℕ × TrackPoint) → LoopState → LoopState
  | [], s => s
  | (i, pt) :: rest, s => runLoop cfg env rest (stepPoint cfg env s i pt)

/-- The initial accumulation state (lines 132-134). -/
def initState : LoopState :=
  { danger_zones := [], danger_indices := ∅, weather_scores := [], warnings := [] }

/-- The points retained after downsampling together with the loop result. -/
structure PipelineOut where
  points : List TrackPoint
  state : LoopState

/-- Lines 113-164: read points (given), select the stride, downsample, and run
the per-point loop over the enumerated downsampled sequence. -/
def runPipeline (cfg : Config) (env : Env) (raw_points : List TrackPoint) :
    PipelineOut :=
  let step := select_step cfg.skip_downsample raw_points.length
  let points := downsample raw_points step
  { points := points, state := runLoop cfg env points.enum initState }

/-- The aggregate outputs computed after the loop (lines 174-179). -/
structure Report where
  danger_frac : ℚ
  quality : String
  avg_weather_score : Option ℚ
deriving DecidableEq

/-- Lines 174-179: `danger_ratio = len(danger_indices) / len(points)` followed
by `estimate_gps_quality` and the optional average weather score. Python
raises an uncaught `ZeroDivisionError` when `len(points) = 0`; that is the
`Except.error` branch — there is no emptiness guard in the script. -/
def analyzeReport (cfg : Config) (env : Env) (raw_points : List TrackPoint) :
    Except Unit Report :=
  let out := runPipeline cfg env raw_points
  if out.points.length = 0 then Except.error ()
  else
    let frac := (out.state.danger_indices.card : ℚ) / (out.points.length : ℚ)
    Except.ok
      { danger_frac := frac
        quality := estimate_gps_quality frac
        avg_weather_score :=
          if !out.state.weather_scores.isEmpty && !cfg.skip_weather then
            some (out.state.weather_scores.sum / (out.state.weather_scores.length : ℚ))
          else none }

/-! ### Per-point outcome functions

The loop body appends to each accumulator independently per point; these
functions give the contribution of a single enumerated point, and
`runLoop_eq` below proves the loop equal to their `filterMap`s. -/

/-- The danger zone contributed by one enumerated point, if any. -/
def zoneOf (cfg : Config) (env : Env) (ipt : ℕ × TrackPoint) : Option DangerZone :=
  match env.overpass ipt.1 with
  | Except.error _ => none
  | Except.ok buildings =>
    let nearby :=
      buildings_near env.dist (ipt.2.lat, ipt.2.lon) buildings cfg.radius_m cfg.min_height
    if nearby.isEmpty then none
    else
      some { index := ipt.1, lat := ipt.2.lat, lon := ipt.2.lon, time := ipt.2.time,
             num_buildings := nearby.length,
             weather := if cfg.skip_weather then allNoneWeather
                        else get_weather_data (env.weather ipt.1) }

/-- The weather score contributed by one enumerated point, if any. -/
def scoreOf (cfg : Config) (env : Env) (ipt : ℕ × TrackPoint) : Option ℚ :=
  match env.overpass ipt.1 with
  | Except.error _ => none
  | Except.ok _ =>
    if cfg.skip_weather then none
    else
      let w := get_weather_data (env.weather ipt.1)
      compute_weather_score w.clouds w.precip w.visibility

/-- The warning index contributed by one enumerated point, if any. -/
def warnOf (env : Env) (ipt : ℕ × TrackPoint) : Option ℕ :=
  match env.overpass ipt.1 with
  | Except.error _ => some ipt.1
  | Except.ok _ => none

/-- Whether one enumerated point is flagged as dangerous. -/
def dangerB (cfg : Config) (env : Env) (ipt : ℕ × TrackPoint) : Bool :=
  match env.overpass ipt.1 with
  | Except.error _ => false
  | Except.ok buildings =>
    !(buildings_near env.dist (ipt.2.lat, ipt.2.lon) buildings
        cfg.radius_m cfg.min_height).isEmpty

/-- The danger index contributed by one enumerated point, if any. -/
def idxOf (cfg : Config) (env : Env) (ipt : ℕ × TrackPoint) : Option ℕ :=
  (zoneOf cfg env ipt).map DangerZone.index

deriving instance DecidableEq for Except

/-! ### Decomposition of the loop -/

theorem stepPoint_eq (cfg : Config) (env : Env) (s : LoopState) (i : ℕ)
    (pt : TrackPoint) :
    stepPoint cfg env s i pt =
      { danger_zones := s.danger_zones ++ (zoneOf cfg env (i, pt)).toList
        danger_indices := s.danger_indices ∪ ((idxOf cfg env (i, pt)).toList).toFinset
        weather_scores := s.weather_scores ++ (scoreOf cfg env (i, pt)).toList
        warnings := s.warnings ++ (warnOf env (i, pt)).toList } := by
  cases h : env.overpass i with
  | error e =>
    simp [stepPoint, zoneOf, scoreOf, warnOf, idxOf, h]
  | ok buildings =>
    by_cases hw : cfg.skip_weather
    · by_cases hne :
        (buildings_near env.dist (pt.lat, pt.lon) buildings cfg.radius_m cfg.min_height).isEmpty
      · simp [stepPoint, zoneOf, scoreOf, warnOf, idxOf, h, hw, hne]
      · simp [stepPoint, zoneOf, scoreOf, warnOf, idxOf, h, hw, hne]
        ext x
        simp [or_comm]
    · cases hsc : compute_weather_score
        (get_weather_data (env.weather i)).clouds
        (get_weather_data (env.weather i)).precip
        (get_weather_data (env.weather i)).visibility with
      | none =>
        by_cases hne :
          (buildings_near env.dist (pt.lat, pt.lon) buildings cfg.radius_m cfg.min_height).isEmpty
        · simp [stepPoint, zoneOf, scoreOf, warnOf, idxOf, h, hw, hne, hsc]
        · simp [stepPoint, zoneOf, scoreOf, warnOf, idxOf, h, hw, hne, hsc]
          ext x
          simp [or_comm]
      | some sc =>
        by_cases hne :
          (buildings_near env.dist (pt.lat, pt.lon) buildings cfg.radius_m cfg.min_height).isEmpty
        · simp [stepPoint, zoneOf, scoreOf, warnOf, idxOf, h, hw, hne, hsc]
        · simp [stepPoint, zoneOf, scoreOf, warnOf, idxOf, h, hw, hne, hsc]
          ext x
          simp [or_comm]

theorem runLoop_eq (cfg : Config) (env : Env) (l : List (ℕ × TrackPoint))
    (s : LoopState) :
    runLoop cfg env l s =
      { danger_zones := s.danger_zones ++ l.filterMap (zoneOf cfg env)
        danger_indices := s.danger_indices ∪ (l.filterMap (idxOf cfg env)).toFinset
        weather_scores := s.weather_scores ++ l.filterMap (scoreOf cfg env)
        warnings := s.warnings ++ l.filterMap (warnOf env) } := by
  induction l generalizing s with
  | nil => simp [runLoop]
  | cons ipt rest ih =>
    obtain ⟨i, pt⟩ := ipt
    rw [runLoop, ih, stepPoint_eq]
    cases hz : zoneOf cfg env (i, pt) <;>
      cases hs : scoreOf cfg env (i, pt) <;>
      cases hwn : warnOf env (i, pt) <;>
      simp [idxOf, hz, hs, hwn, Finset.union_assoc] <;>
      (ext x; simp; tauto)

/-! ### Characterisation helpers -/

theorem building_entry_eq_some (d : ℚ × ℚ → ℚ × ℚ → ℚ) (point : ℚ × ℚ)
    (radius height_thresh : ℚ) (b : OSMElement) (nb : NearBuilding) :
    building_entry d point radius height_thresh b = some nb ↔
      ∃ tags h c, b.tags = some tags ∧ tags.height = some (HeightAttr.num h) ∧
        h ≥ height_thresh ∧ b.center = some c ∧
        d point (c.lat, c.lon) ≤ radius ∧
        nb = { lat := c.lat, lon := c.lon, height := h } := by
  obtain ⟨tgs, ctr⟩ := b
  cases tgs with
  | none => simp [building_entry]
  | some t =>
    obtain ⟨hv⟩ := t
    cases hv with
    | none => simp [building_entry]
    | some ha =>
      cases ha with
      | nonNumeric => simp [building_entry]
      | num h =>
        by_cases hth : h ≥ height_thresh
        · cases ctr with
          | none => simp [building_entry, hth]
          | some c =>
            by_cases hd : d point (c.lat, c.lon) ≤ radius
            · simp [building_entry, hth, hd, eq_comm]
            · simp [building_entry, hth, hd]
        · simp [building_entry, hth]

theorem dangerB_eq_true (cfg : Config) (env : Env) (ipt : ℕ × TrackPoint) :
    dangerB cfg env ipt = true ↔
      ∃ bs, env.overpass ipt.1 = Except.ok bs ∧
        buildings_near env.dist (ipt.2.lat, ipt.2.lon) bs
          cfg.radius_m cfg.min_height ≠ [] := by
  cases h : env.overpass ipt.1 with
  | error e => simp [dangerB, h]
  | ok bs => simp [dangerB, h, List.isEmpty_iff]

theorem zoneOf_eq_guard (cfg : Config) (env : Env) (ipt : ℕ × TrackPoint) :
    (zoneOf cfg env ipt).isSome = dangerB cfg env ipt := by
  cases h : env.overpass ipt.1 with
  | error e => simp [zoneOf, dangerB, h]
  | ok bs =>
    by_cases hne :
      (buildings_near env.dist (ipt.2.lat, ipt.2.lon) bs cfg.radius_m cfg.min_height).isEmpty
    · simp [zoneOf, dangerB, h, hne]
    · simp [zoneOf, dangerB, h, hne]

theorem zoneOf_index (cfg : Config) (env : Env) (ipt : ℕ × TrackPoint)
    (dz : DangerZone) (h : zoneOf cfg env ipt = some dz) : dz.index = ipt.1 := by
  cases ho : env.overpass ipt.1 with
  | error e => simp [zoneOf, ho] at h
  | ok bs =>
    by_cases hne :
      (buildings_near env.dist (ipt.2.lat, ipt.2.lon) bs cfg.radius_m cfg.min_height).isEmpty
    · simp [zoneOf, ho, hne] at h
    · simp [zoneOf, ho, hne] at h
      simp [← h]

theorem idxOf_eq_guard (cfg : Config) (env : Env) (ipt : ℕ × TrackPoint) :
    idxOf cfg env ipt = if dangerB cfg env ipt then some ipt.1 else none := by
  rw [idxOf]
  cases h : zoneOf cfg env ipt with
  | none =>
    have := zoneOf_eq_guard cfg env ipt
    rw [h] at this
    simp [← this]
  | some dz =>
    have := zoneOf_eq_guard cfg env ipt
    rw [h] at this
    simp [← this, zoneOf_index cfg env ipt dz h]

theorem filterMap_guard {α β : Type} (p : α → Bool) (g : α → β) (l : List α) :
    l.filterMap (fun x => if p x then some (g x) else none) =
      (l.filter p).map g := by
  induction l with
  | nil => rfl
  | cons x xs ih =>
    by_cases h : p x <;> simp [h, ih]

theorem idxOf_eq_some (cfg : Config) (env : Env) (ipt : ℕ × TrackPoint) (i : ℕ) :
    idxOf cfg env ipt = some i ↔ ipt.1 = i ∧ dangerB cfg env ipt = true := by
  rw [idxOf_eq_guard]
  by_cases h : dangerB cfg env ipt <;> simp [h]

/-- `dangerB` never consults the weather service or the `skip_weather` and
`add_randomness` flags. -/
theorem dangerB_weather_irrel (cfg : Config) (env : Env)
    (w : ℕ → Except Unit WeatherFields) (sw ar : Bool) (ipt : ℕ × TrackPoint) :
    dangerB { cfg with skip_weather := sw, add_randomness := ar }
        { env with weather := w } ipt = dangerB cfg env ipt := rfl

/-- Python slicing `points[::step]` keeps exactly the elements at the
multiples of `step`: position `k` of the slice is position `k * step` of the
original list. -/
theorem pySlice_getElem {α : Type} (step : ℕ) (hs : 1 ≤ step) :
    ∀ (pts : List α) (k : ℕ), (pySlice step pts)[k]? = pts[k * step]?
  | [], k => by simp [pySlice]
  | _ :: _, 0 => by simp [pySlice]
  | x :: xs, k + 1 => by
    have ih := pySlice_getElem step hs (xs.drop (step - 1)) k
    rw [pySlice]
    have hidx : (k + 1) * step = (step - 1 + k * step) + 1 := by
      rw [Nat.succ_mul]; omega
    rw [hidx, List.getElem?_cons_succ, List.getElem?_cons_succ, ih,
      List.getElem?_drop]
termination_by pts _ => pts.length
decreasing_by simp only [List.length_drop, List.length_cons]; omega

theorem downsample_getElem {α : Type} (pts : List α) (step : ℕ) (hs : 1 ≤ step)
    (k : ℕ) : (downsample pts step)[k]? = pts[k * step]? := by
  rcases Nat.lt_or_ge 1 step with h | h
  · rw [downsample, if_pos h, pySlice_getElem step hs]
  · have h1 : step = 1 := by omega
    subst h1
    simp [downsample]

/-! ### Claims -/

/-- C8: the stride is 1 when `skip_downsample` is set, else 1 / 3 / 7 / 12 by
the raw count thresholds 300, 1000, 3000; `downsample` keeps every `step`-th
point starting at index 0 and is the identity at stride 1. -/
theorem C8_downsample_policy (n : ℕ) :
    select_step true n = 1 ∧
    (n ≤ 300 → select_step false n = 1) ∧
    (300 < n → n ≤ 1000 → select_step false n = 3) ∧
    (1000 < n → n ≤ 3000 → select_step false n = 7) ∧
    (3000 < n → select_step false n = 12) ∧
    (∀ (pts : List TrackPoint), downsample pts 1 = pts) ∧
    (∀ (pts : List TrackPoint) (step : ℕ), 1 ≤ step → ∀ k : ℕ,
      (downsample pts step)[k]? = pts[k * step]?) := by
  refine ⟨rfl, ?_, ?_, ?_, ?_, ?_, ?_⟩
  · intro h; simp [select_step, h]
  · intro h1 h2
    simp [select_step, Nat.not_le.mpr h1, h2]
  · intro h1 h2
    simp [select_step, Nat.not_le.mpr (by omega : (300 : ℕ) < n),
      Nat.not_le.mpr h1, h2]
  · intro h1
    simp [select_step, Nat.not_le.mpr h1, Nat.not_le.mpr (by omega : (1000 : ℕ) < n),
      Nat.not_le.mpr (by omega : (300 : ℕ) < n)]
  · intro pts
    simp [downsample]
  · intro pts step hs k
    exact downsample_getElem pts step hs k

/-- Witness for C8 at concrete inputs. -/
theorem C8_downsample_policy_witness :
    select_step false 500 = 3 ∧
    downsample [(⟨0, 0, 0⟩ : TrackPoint), ⟨1, 1, 1⟩, ⟨2, 2, 2⟩] 2 =
      [⟨0, 0, 0⟩, ⟨2, 2, 2⟩] := by
  constructor
  · exact (C8_downsample_policy 500).2.2.1 (by norm_num) (by norm_num)
  · have h0 := (C8_downsample_policy 500).2.2.2.2.2.2
      [(⟨0, 0, 0⟩ : TrackPoint), ⟨1, 1, 1⟩, ⟨2, 2, 2⟩] 2 (by norm_num)
    have h1 := h0 0
    have h2 := h0 1
    have h3 := h0 2
    simp at h1 h2 h3
    apply List.ext_getElem?
    intro k
    match k with
    | 0 => simpa using h1
    | 1 => simpa using h2
    | 2 => simpa using h3
    | (m + 3) =>
      rw [h0 (m + 3),
        List.getElem?_eq_none (by simp only [List.length_cons, List.length_nil]; omega),
        List.getElem?_eq_none (by simp only [List.length_cons, List.length_nil]; omega)]

/-- C9: the Overpass bounding box is the point ± `radius_m / 111000` in both
coordinates, hence symmetric with side `2 * radius_m / 111000`. -/
theorem C9_bbox_symmetric (lat lon radius_m : ℚ)
    (h1 : 10 ≤ radius_m) (h2 : radius_m ≤ 200) :
    overpass_bbox lat lon radius_m =
      (lat - radius_m / 111000, lon - radius_m / 111000,
       lat + radius_m / 111000, lon + radius_m / 111000) ∧
    (lat + radius_m / 111000) - (lat - radius_m / 111000) =
      2 * (radius_m / 111000) ∧
    (lon + radius_m / 111000) - (lon - radius_m / 111000) =
      2 * (radius_m / 111000) ∧
    lat - (lat - radius_m / 111000) = (lat + radius_m / 111000) - lat ∧
    lon - (lon - radius_m / 111000) = (lon + radius_m / 111000) - lon :=
  ⟨rfl, by ring, by ring, by ring, by ring⟩

/-- Witness for C9 at `(lat, lon) = (41, 2)`, radius 50. -/
theorem C9_bbox_symmetric_witness :
    (10 : ℚ) ≤ 50 ∧ (50 : ℚ) ≤ 200 ∧
    overpass_bbox 41 2 50 =
      (41 - 50 / 111000, 2 - 50 / 111000, 41 + 50 / 111000, 2 + 50 / 111000) :=
  ⟨by norm_num, by norm_num,
    (C9_bbox_symmetric 41 2 50 (by norm_num) (by norm_num)).1⟩

/-- C2: the quality label is Low for ratio > 0.5, Medium for 0.2 < ratio ≤ 0.5,
High for ratio ≤ 0.2; the boundaries 0.2 and 0.5 give High and Medium. -/
theorem C2_quality_thresholds (r : ℚ) :
    (r > 0.5 → estimate_gps_quality r = "❌ Baja") ∧
    (0.2 < r → r ≤ 0.5 → estimate_gps_quality r = "⚠️ Media") ∧
    (r ≤ 0.2 → estimate_gps_quality r = "✅ Alta") ∧
    estimate_gps_quality 0.2 = "✅ Alta" ∧
    estimate_gps_quality 0.5 = "⚠️ Media" := by
  refine ⟨?_, ?_, ?_, ?_, ?_⟩
  · intro h
    simp [estimate_gps_quality, h]
  · intro h1 h2
    simp [estimate_gps_quality, not_lt.mpr h2, h1]
  · intro h
    have h5 : ¬ r > 0.5 := not_lt.mpr (le_trans h (by norm_num))
    simp [estimate_gps_quality, h5, not_lt.mpr h]
  · norm_num [estimate_gps_quality]
  · norm_num [estimate_gps_quality]

/-- Witness for C2 at ratios 1, 0.3 and 0.1. -/
theorem C2_quality_thresholds_witness :
    estimate_gps_quality 1 = "❌ Baja" ∧
    estimate_gps_quality 0.3 = "⚠️ Media" ∧
    estimate_gps_quality 0.1 = "✅ Alta" :=
  ⟨(C2_quality_thresholds 1).1 (by norm_num),
   (C2_quality_thresholds 0.3).2.1 (by norm_num) (by norm_num),
   (C2_quality_thresholds 0.1).2.2.1 (by norm_num)⟩

/-- C3: the weather score is null iff some field is null; otherwise it is
`100 - (clouds*0.3 + precip*5 + (10 - min(visibility,10))*5)` clamped into
`[0, 100]`; `score(0,0,10) = 100`; every non-null score lies in `[0, 100]`. -/
theorem C3_weather_score_spec (clouds precip visibility : Option ℚ) :
    (compute_weather_score clouds precip visibility = none ↔
      clouds = none ∨ precip = none ∨ visibility = none) ∧
    (∀ c p v, clouds = some c → precip = some p → visibility = some v →
      compute_weather_score clouds precip visibility =
        some (max 0 (min 100 (100 - (c * 0.3 + p * 5 + (10 - min v 10) * 5))))) ∧
    (∀ s, compute_weather_score clouds precip visibility = some s →
      0 ≤ s ∧ s ≤ 100) ∧
    compute_weather_score (some 0) (some 0) (some 10) = some 100 := by
  refine ⟨?_, ?_, ?_, by norm_num [compute_weather_score]⟩
  · cases clouds <;> cases precip <;> cases visibility <;>
      simp [compute_weather_score]
  · intro c p v hc hp hv
    subst hc; subst hp; subst hv
    rfl
  · intro s hs
    cases clouds with
    | none => simp [compute_weather_score] at hs
    | some c =>
      cases precip with
      | none => simp [compute_weather_score] at hs
      | some p =>
        cases visibility with
        | none => simp [compute_weather_score] at hs
        | some v =>
          simp only [compute_weather_score, Option.some.injEq] at hs
          constructor
          · rw [← hs]; exact le_max_left 0 _
          · rw [← hs]; exact max_le (by norm_num) (min_le_left _ _)

/-- Witness for C3: an all-present sample evaluates through the formula and
lands in bounds; a sample with a missing field is null. -/
theorem C3_weather_score_spec_witness :
    compute_weather_score (some 80) (some 2) (some 3) = some 31 ∧
    (0 ≤ (31 : ℚ) ∧ (31 : ℚ) ≤ 100) ∧
    compute_weather_score none (some 0) (some 10) = none := by
  have h2 := (C3_weather_score_spec (some 80) (some 2) (some 3)).2.1
    80 2 3 rfl rfl rfl
  have heq : compute_weather_score (some 80) (some 2) (some 3) = some 31 := by
    rw [h2]; norm_num
  have h3 := (C3_weather_score_spec (some 80) (some 2) (some 3)).2.2.1 31 heq
  have h1 := (C3_weather_score_spec none (some 0) (some 10)).1.mpr (Or.inl rfl)
  exact ⟨heq, h3, h1⟩

/-- The loop state produced by a pipeline run, as per-point contributions. -/
theorem runPipeline_state (cfg : Config) (env : Env) (raw : List TrackPoint) :
    (runPipeline cfg env raw).state =
      { danger_zones :=
          (runPipeline cfg env raw).points.enum.filterMap (zoneOf cfg env)
        danger_indices :=
          ((runPipeline cfg env raw).points.enum.filterMap (idxOf cfg env)).toFinset
        weather_scores :=
          (runPipeline cfg env raw).points.enum.filterMap (scoreOf cfg env)
        warnings :=
          (runPipeline cfg env raw).points.enum.filterMap (warnOf env) } := by
  simp [runPipeline, runLoop_eq, initState]

/-- C1: `buildings_near` returns exactly the features whose height attribute
parses to a number `h ≥ height_thresh` and whose centroid is present and at
distance `≤ radius` from the point (both boundaries inclusive); features with
missing tags, missing or non-numeric height, or missing centroid are dropped
silently (the function is total, no error is raised). -/
theorem C1_buildings_near_mem (d : ℚ × ℚ → ℚ × ℚ → ℚ) (point : ℚ × ℚ)
    (resp : OverpassResp) (radius height_thresh : ℚ) (nb : NearBuilding) :
    nb ∈ buildings_near d point resp radius height_thresh ↔
      ∃ b ∈ resp.elements, ∃ tags h c,
        b.tags = some tags ∧ tags.height = some (HeightAttr.num h) ∧
        h ≥ height_thresh ∧ b.center = some c ∧
        d point (c.lat, c.lon) ≤ radius ∧
        nb = { lat := c.lat, lon := c.lon, height := h } := by
  rw [buildings_near, List.mem_filterMap]
  constructor
  · rintro ⟨b, hb, he⟩
    exact ⟨b, hb, (building_entry_eq_some d point radius height_thresh b nb).mp he⟩
  · rintro ⟨b, hb, tags, h, c, hx⟩
    exact ⟨b, hb,
      (building_entry_eq_some d point radius height_thresh b nb).mpr ⟨tags, h, c, hx⟩⟩

/-- Witness for C1: a qualifying feature at the boundary (height exactly at
the threshold, distance exactly at the radius) is returned; with the height
tag non-numeric the same feature is dropped. -/
theorem C1_buildings_near_mem_witness :
    ({ lat := 1, lon := 2, height := 15 } : NearBuilding) ∈
      buildings_near (fun _ _ => 50) (0, 0)
        ⟨[{ tags := some ⟨some (HeightAttr.num 15)⟩, center := some ⟨1, 2⟩ }]⟩
        50 15 ∧
    ¬ (({ lat := 1, lon := 2, height := 15 } : NearBuilding) ∈
      buildings_near (fun _ _ => 50) (0, 0)
        ⟨[{ tags := some ⟨some HeightAttr.nonNumeric⟩, center := some ⟨1, 2⟩ }]⟩
        50 15) := by
  constructor
  · exact (C1_buildings_near_mem (fun _ _ => 50) (0, 0)
      ⟨[{ tags := some ⟨some (HeightAttr.num 15)⟩, center := some ⟨1, 2⟩ }]⟩
      50 15 { lat := 1, lon := 2, height := 15 }).mpr
      ⟨_, List.mem_singleton_self _, ⟨some (HeightAttr.num 15)⟩, 15, ⟨1, 2⟩,
        rfl, rfl, le_refl 15, rfl, by norm_num, rfl⟩
  · intro hmem
    obtain ⟨b, hb, tags, h, c, htags, hh, -, -, -, -⟩ :=
      (C1_buildings_near_mem (fun _ _ => 50) (0, 0)
        ⟨[{ tags := some ⟨some HeightAttr.nonNumeric⟩, center := some ⟨1, 2⟩ }]⟩
        50 15 { lat := 1, lon := 2, height := 15 }).mp hmem
    simp at hb
    subst hb
    simp at htags
    subst htags
    simp at hh

/-- C4: a point's index is a danger index exactly when its Overpass query
succeeded and the proximity filter returned at least one qualifying building;
a `DangerZone` with that index exists exactly when the index is a danger
index; and the danger indices are unchanged by any weather responses and any
`skip_weather` / `add_randomness` setting — weather never creates a zone. -/
theorem C4_zone_iff_buildings (cfg : Config) (env : Env)
    (raw : List TrackPoint) (i : ℕ) :
    (i ∈ (runPipeline cfg env raw).state.danger_indices ↔
      ∃ pt bs, (i, pt) ∈ (runPipeline cfg env raw).points.enum ∧
        env.overpass i = Except.ok bs ∧
        buildings_near env.dist (pt.lat, pt.lon) bs cfg.radius_m cfg.min_height ≠ []) ∧
    ((∃ dz ∈ (runPipeline cfg env raw).state.danger_zones, dz.index = i) ↔
      i ∈ (runPipeline cfg env raw).state.danger_indices) ∧
    (∀ (w : ℕ → Except Unit WeatherFields) (sw ar : Bool),
      (runPipeline { cfg with skip_weather := sw, add_randomness := ar }
          { env with weather := w } raw).state.danger_indices =
        (runPipeline cfg env raw).state.danger_indices) := by
  have hmem : ∀ (cfg' : Config) (env' : Env),
      cfg'.skip_downsample = cfg.skip_downsample →
      ∀ j, j ∈ (runPipeline cfg' env' raw).state.danger_indices ↔
        ∃ ipt, ipt ∈ (downsample raw
            (select_step cfg.skip_downsample raw.length)).enum ∧
          idxOf cfg' env' ipt = some j := by
    intro cfg' env' hsd j
    rw [runPipeline_state]
    simp only [List.mem_toFinset, List.mem_filterMap]
    constructor
    · rintro ⟨ipt, hin, hid⟩
      refine ⟨ipt, ?_, hid⟩
      simpa [runPipeline, hsd] using hin
    · rintro ⟨ipt, hin, hid⟩
      refine ⟨ipt, ?_, hid⟩
      simpa [runPipeline, hsd] using hin
  refine ⟨?_, ?_, ?_⟩
  · rw [hmem cfg env rfl i]
    constructor
    · rintro ⟨⟨j, pt⟩, hin, hid⟩
      rw [idxOf_eq_some] at hid
      obtain ⟨rfl, hd⟩ := hid
      obtain ⟨bs, hbs, hne⟩ := (dangerB_eq_true cfg env (j, pt)).mp hd
      refine ⟨pt, bs, ?_, hbs, hne⟩
      simpa [runPipeline] using hin
    · rintro ⟨pt, bs, hin, hbs, hne⟩
      refine ⟨(i, pt), ?_, ?_⟩
      · simpa [runPipeline] using hin
      · rw [idxOf_eq_some]
        exact ⟨rfl, (dangerB_eq_true cfg env (i, pt)).mpr ⟨bs, hbs, hne⟩⟩
  · rw [runPipeline_state]
    simp only [List.mem_filterMap, List.mem_toFinset]
    constructor
    · rintro ⟨dz, ⟨ipt, hin, hz⟩, hidx⟩
      exact ⟨ipt, hin, by rw [idxOf, hz]; simp [hidx]⟩
    · rintro ⟨ipt, hin, hid⟩
      rw [idxOf] at hid
      cases hz : zoneOf cfg env ipt with
      | none => rw [hz] at hid; simp at hid
      | some dz =>
        rw [hz] at hid
        simp at hid
        exact ⟨dz, ⟨ipt, hin, hz⟩, hid⟩
  · intro w sw ar
    ext j
    rw [hmem { cfg with skip_weather := sw, add_randomness := ar }
      { env with weather := w } rfl j, hmem cfg env rfl j]
    constructor
    · rintro ⟨ipt, hin, hid⟩
      refine ⟨ipt, hin, ?_⟩
      rw [idxOf_eq_guard] at hid ⊢
      rwa [dangerB_weather_irrel] at hid
    · rintro ⟨ipt, hin, hid⟩
      refine ⟨ipt, hin, ?_⟩
      rw [idxOf_eq_guard] at hid ⊢
      rwa [dangerB_weather_irrel]

/-- Witness for C4: with one point and a qualifying building the index 0 is a
danger index, and flipping the weather environment does not change that. -/
theorem C4_zone_iff_buildings_witness :
    0 ∈ (runPipeline ⟨50, 15, false, false, true⟩
      ⟨fun _ _ => 0,
       fun _ => Except.ok ⟨[{ tags := some ⟨some (HeightAttr.num 20)⟩,
                              center := some ⟨0, 0⟩ }]⟩,
       fun _ => Except.ok allNoneWeather⟩
      [⟨0, 0, 0⟩]).state.danger_indices := by
  refine (C4_zone_iff_buildings ⟨50, 15, false, false, true⟩
    ⟨fun _ _ => 0,
     fun _ => Except.ok ⟨[{ tags := some ⟨some (HeightAttr.num 20)⟩,
                            center := some ⟨0, 0⟩ }]⟩,
     fun _ => Except.ok allNoneWeather⟩
    [⟨0, 0, 0⟩] 0).1.mpr ⟨⟨0, 0, 0⟩,
      ⟨[{ tags := some ⟨some (HeightAttr.num 20)⟩, center := some ⟨0, 0⟩ }]⟩,
      ?_, rfl, by decide⟩
  decide

theorem warnOf_eq_some (env : Env) (ipt : ℕ × TrackPoint) (i : ℕ) :
    warnOf env ipt = some i ↔
      ipt.1 = i ∧ env.overpass ipt.1 = Except.error () := by
  cases h : env.overpass ipt.1 with
  | error e => cases e; simp [warnOf, h]
  | ok bs => simp [warnOf, h]

/-- A danger index is always witnessed by a recorded `DangerZone` and
conversely. -/
theorem mem_indices_iff_zone (cfg : Config) (env : Env) (raw : List TrackPoint)
    (i : ℕ) :
    i ∈ (runPipeline cfg env raw).state.danger_indices ↔
      ∃ dz ∈ (runPipeline cfg env raw).state.danger_zones, dz.index = i := by
  rw [runPipeline_state]
  simp only [List.mem_filterMap, List.mem_toFinset]
  constructor
  · rintro ⟨ipt, hin, hid⟩
    rw [idxOf] at hid
    cases hz : zoneOf cfg env ipt with
    | none => rw [hz] at hid; simp at hid
    | some dz =>
      rw [hz] at hid
      simp at hid
      exact ⟨dz, ⟨ipt, hin, hz⟩, hid⟩
  · rintro ⟨dz, ⟨ipt, hin, hz⟩, hidx⟩
    exact ⟨ipt, hin, by rw [idxOf, hz]; simp [hidx]⟩

/-- C6 (counterexample): with weather analysis enabled, a weather-service
network error at point 0 does NOT produce a warning — the bare `except`
inside `get_weather_data` swallows it, so the warnings list stays empty,
refuting the claim that a network error from either external service yields
a warning for that index. -/
theorem C6_counterexample_weather_silent :
    (⟨50, 15, false, false, false⟩ : Config).skip_weather = false ∧
    (⟨fun _ _ => 0, fun _ => Except.ok ⟨[]⟩,
      fun _ => Except.error ()⟩ : Env).weather 0 = Except.error () ∧
    (runPipeline ⟨50, 15, false, false, false⟩
      ⟨fun _ _ => 0, fun _ => Except.ok ⟨[]⟩, fun _ => Except.error ()⟩
      [⟨0, 0, 0⟩]).points.enum = [(0, ⟨0, 0, 0⟩)] ∧
    (runPipeline ⟨50, 15, false, false, false⟩
      ⟨fun _ _ => 0, fun _ => Except.ok ⟨[]⟩, fun _ => Except.error ()⟩
      [⟨0, 0, 0⟩]).state.warnings = [] := by
  refine ⟨rfl, rfl, by decide, by decide⟩

/-- C6 (amended): a proximity network error at point `i` is caught — a
warning carrying index `i` is recorded and the point contributes no danger
index, no danger zone and no weather score — and the loop result is
pointwise, so all other points are unaffected. A weather network error is
swallowed silently inside `get_weather_data`: the sample degrades to
all-null, the score contribution is null, and NO warning is recorded. -/
theorem C6_error_isolation (cfg : Config) (env : Env) (raw : List TrackPoint)
    (i : ℕ) :
    (i ∈ (runPipeline cfg env raw).state.warnings ↔
      ∃ pt, (i, pt) ∈ (runPipeline cfg env raw).points.enum ∧
        env.overpass i = Except.error ()) ∧
    (env.overpass i = Except.error () →
      i ∉ (runPipeline cfg env raw).state.danger_indices ∧
      (∀ dz ∈ (runPipeline cfg env raw).state.danger_zones, dz.index ≠ i) ∧
      ∀ pt, scoreOf cfg env (i, pt) = none) ∧
    (env.weather i = Except.error () →
      get_weather_data (env.weather i) = allNoneWeather ∧
      (∀ pt, scoreOf cfg env (i, pt) = none) ∧
      ((∃ bs, env.overpass i = Except.ok bs) →
        i ∉ (runPipeline cfg env raw).state.warnings)) ∧
    ((runPipeline cfg env raw).state.danger_zones =
        (runPipeline cfg env raw).points.enum.filterMap (zoneOf cfg env) ∧
      (runPipeline cfg env raw).state.weather_scores =
        (runPipeline cfg env raw).points.enum.filterMap (scoreOf cfg env) ∧
      (runPipeline cfg env raw).state.warnings =
        (runPipeline cfg env raw).points.enum.filterMap (warnOf env)) ∧
    (∀ env2 : Env, env2.dist = env.dist →
      (∀ j, j ≠ i → env2.overpass j = env.overpass j) →
      (∀ j, j ≠ i → env2.weather j = env.weather j) →
      ∀ j pt, j ≠ i →
        zoneOf cfg env2 (j, pt) = zoneOf cfg env (j, pt) ∧
        scoreOf cfg env2 (j, pt) = scoreOf cfg env (j, pt) ∧
        warnOf env2 (j, pt) = warnOf env (j, pt)) := by
  have hwarn : ∀ j, j ∈ (runPipeline cfg env raw).state.warnings ↔
      ∃ pt, (j, pt) ∈ (runPipeline cfg env raw).points.enum ∧
        env.overpass j = Except.error () := by
    intro j
    rw [runPipeline_state]
    simp only [List.mem_filterMap]
    constructor
    · rintro ⟨⟨k, pt⟩, hin, hw⟩
      obtain ⟨hk, he⟩ := (warnOf_eq_some env (k, pt) j).mp hw
      subst hk
      exact ⟨pt, hin, he⟩
    · rintro ⟨pt, hin, he⟩
      exact ⟨(j, pt), hin, (warnOf_eq_some env (j, pt) j).mpr ⟨rfl, he⟩⟩
  refine ⟨hwarn i, ?_, ?_, ?_, ?_⟩
  · intro herr
    refine ⟨?_, ?_, ?_⟩
    · intro hmem
      rw [runPipeline_state] at hmem
      simp only [List.mem_filterMap, List.mem_toFinset] at hmem
      obtain ⟨ipt, hin, hid⟩ := hmem
      obtain ⟨hk, hd⟩ := (idxOf_eq_some cfg env ipt i).mp hid
      obtain ⟨bs, hbs, -⟩ := (dangerB_eq_true cfg env ipt).mp hd
      rw [hk, herr] at hbs
      exact Except.noConfusion hbs
    · intro dz hdz hidx
      rw [runPipeline_state] at hdz
      simp only [List.mem_filterMap] at hdz
      obtain ⟨ipt, hin, hz⟩ := hdz
      have hk := zoneOf_index cfg env ipt dz hz
      have hsome : (zoneOf cfg env ipt).isSome := by rw [hz]; rfl
      rw [zoneOf_eq_guard] at hsome
      obtain ⟨bs, hbs, -⟩ := (dangerB_eq_true cfg env ipt).mp hsome
      rw [← hk, hidx, herr] at hbs
      exact Except.noConfusion hbs
    · intro pt
      simp [scoreOf, herr]
  · intro herr
    refine ⟨by rw [herr]; rfl, ?_, ?_⟩
    · intro pt
      cases ho : env.overpass i with
      | error e => simp [scoreOf, ho]
      | ok bs =>
        by_cases hw : cfg.skip_weather
        · simp [scoreOf, ho, hw]
        · simp [scoreOf, ho, hw, herr, get_weather_data, allNoneWeather,
            compute_weather_score]
    · rintro ⟨bs, hbs⟩ hmem
      obtain ⟨pt, -, he⟩ := (hwarn i).mp hmem
      rw [hbs] at he
      exact Except.noConfusion he
  · rw [runPipeline_state]
    exact ⟨rfl, rfl, rfl⟩
  · intro env2 hd ho hw j pt hj
    have h1 := ho j hj
    have h2 := hw j hj
    refine ⟨?_, ?_, ?_⟩
    · simp only [zoneOf, h1, h2, hd]
    · simp only [scoreOf, h1, h2]
    · simp only [warnOf, h1]

/-- Witness for C6: a proximity network error at the sole point yields a
warning with index 0 and no danger index. -/
theorem C6_error_isolation_witness :
    0 ∈ (runPipeline ⟨50, 15, false, false, true⟩
      ⟨fun _ _ => 0, fun _ => Except.error (), fun _ => Except.ok allNoneWeather⟩
      [⟨0, 0, 0⟩]).state.warnings ∧
    0 ∉ (runPipeline ⟨50, 15, false, false, true⟩
      ⟨fun _ _ => 0, fun _ => Except.error (), fun _ => Except.ok allNoneWeather⟩
      [⟨0, 0, 0⟩]).state.danger_indices := by
  constructor
  · exact (C6_error_isolation ⟨50, 15, false, false, true⟩
      ⟨fun _ _ => 0, fun _ => Except.error (), fun _ => Except.ok allNoneWeather⟩
      [⟨0, 0, 0⟩] 0).1.mpr ⟨⟨0, 0, 0⟩, by decide, rfl⟩
  · exact ((C6_error_isolation ⟨50, 15, false, false, true⟩
      ⟨fun _ _ => 0, fun _ => Except.error (), fun _ => Except.ok allNoneWeather⟩
      [⟨0, 0, 0⟩] 0).2.1 rfl).1

/-- C7 (counterexample): with a single downsampled point whose building
qualifies, the set of danger indices equals the FULL index range
`[0, 1)` — it is not a strict subset, refuting that part of the claim. -/
theorem C7_counterexample_full_range :
    (runPipeline ⟨50, 15, false, false, true⟩
      ⟨fun _ _ => 0,
       fun _ => Except.ok ⟨[{ tags := some ⟨some (HeightAttr.num 20)⟩,
                              center := some ⟨0, 0⟩ }]⟩,
       fun _ => Except.ok allNoneWeather⟩ [⟨0, 0, 0⟩]).points.length = 1 ∧
    (runPipeline ⟨50, 15, false, false, true⟩
      ⟨fun _ _ => 0,
       fun _ => Except.ok ⟨[{ tags := some ⟨some (HeightAttr.num 20)⟩,
                              center := some ⟨0, 0⟩ }]⟩,
       fun _ => Except.ok allNoneWeather⟩ [⟨0, 0, 0⟩]).state.danger_indices =
      Finset.range 1 := by
  refine ⟨by decide, by decide⟩

/-- C7 (amended): every danger index lies in `[0, n)` for `n` the downsampled
length, no index is recorded twice in the danger-zone list, and danger
indices and danger zones carry exactly the same indices; the set may however
equal the full range. -/
theorem C7_indices_subset_range (cfg : Config) (env : Env)
    (raw : List TrackPoint) :
    (runPipeline cfg env raw).state.danger_indices ⊆
      Finset.range (runPipeline cfg env raw).points.length ∧
    ((runPipeline cfg env raw).state.danger_zones.map DangerZone.index).Nodup ∧
    (∀ i, i ∈ (runPipeline cfg env raw).state.danger_indices ↔
      ∃ dz ∈ (runPipeline cfg env raw).state.danger_zones, dz.index = i) := by
  refine ⟨?_, ?_, fun i => mem_indices_iff_zone cfg env raw i⟩
  · intro j hj
    rw [runPipeline_state] at hj
    simp only [List.mem_toFinset, List.mem_filterMap] at hj
    obtain ⟨⟨k, pt⟩, hin, hid⟩ := hj
    obtain ⟨hk, -⟩ := (idxOf_eq_some cfg env (k, pt) j).mp hid
    subst hk
    rw [List.mk_mem_enum_iff_getElem?] at hin
    obtain ⟨hlt, -⟩ := List.getElem?_eq_some_iff.mp hin
    exact Finset.mem_range.mpr hlt
  · rw [runPipeline_state]
    rw [List.map_filterMap]
    have hfn : (fun ipt => (zoneOf cfg env ipt).map DangerZone.index) =
        idxOf cfg env := rfl
    rw [hfn]
    rw [List.filterMap_congr (fun a _ => idxOf_eq_guard cfg env a),
      filterMap_guard (dangerB cfg env) Prod.fst]
    exact (List.nodup_enum_map_fst _).sublist
      ((List.filter_sublist _).map Prod.fst)

/-- Witness for C7 at a concrete two-point run. -/
theorem C7_indices_subset_range_witness :
    (runPipeline ⟨50, 15, false, false, true⟩
      ⟨fun _ _ => 0, fun _ => Except.ok ⟨[]⟩, fun _ => Except.ok allNoneWeather⟩
      [⟨0, 0, 0⟩, ⟨1, 1, 1⟩]).state.danger_indices ⊆
      Finset.range (runPipeline ⟨50, 15, false, false, true⟩
        ⟨fun _ _ => 0, fun _ => Except.ok ⟨[]⟩, fun _ => Except.ok allNoneWeather⟩
        [⟨0, 0, 0⟩, ⟨1, 1, 1⟩]).points.length :=
  (C7_indices_subset_range ⟨50, 15, false, false, true⟩
    ⟨fun _ _ => 0, fun _ => Except.ok ⟨[]⟩, fun _ => Except.ok allNoneWeather⟩
    [⟨0, 0, 0⟩, ⟨1, 1, 1⟩]).1

/-- C10: the `add_randomness` flag is never consulted: flipping it changes
neither the loop outputs (danger zones, indices, weather scores, warnings)
nor the aggregate report (danger ratio, quality label, average score). -/
theorem C10_add_randomness_unused (cfg : Config) (env : Env)
    (raw : List TrackPoint) (b : Bool) :
    runPipeline { cfg with add_randomness := b } env raw =
      runPipeline cfg env raw ∧
    analyzeReport { cfg with add_randomness := b } env raw =
      analyzeReport cfg env raw := by
  have hstep : ∀ s i pt,
      stepPoint { cfg with add_randomness := b } env s i pt =
        stepPoint cfg env s i pt := by
    intro s i pt
    cases h : env.overpass i <;> simp [stepPoint, h]
  have hloop : ∀ (l : List (ℕ × TrackPoint)) (s : LoopState),
      runLoop { cfg with add_randomness := b } env l s = runLoop cfg env l s := by
    intro l
    induction l with
    | nil => intro s; rfl
    | cons ipt rest ih =>
      intro s
      obtain ⟨i, pt⟩ := ipt
      rw [runLoop, runLoop, hstep, ih]
  have hpipe : runPipeline { cfg with add_randomness := b } env raw =
      runPipeline cfg env raw := by
    simp [runPipeline, hloop]
  refine ⟨hpipe, ?_⟩
  simp [analyzeReport, hpipe]

/-- C5 (code bug): the script computes
`danger_ratio = len(danger_indices) / len(points)` with no emptiness guard,
so an empty (downsampled) point sequence reaches the division with a zero
denominator and raises an uncaught `ZeroDivisionError` instead of being
rejected beforehand; a non-empty sequence always yields a report (per-point
issues are caught inside the loop and are never fatal). -/
theorem C5_empty_sequence_division :
    analyzeReport ⟨50, 15, false, false, true⟩
      ⟨fun _ _ => 0, fun _ => Except.ok ⟨[]⟩, fun _ => Except.ok allNoneWeather⟩
      [] = Except.error () ∧
    analyzeReport ⟨50, 15, false, false, true⟩
      ⟨fun _ _ => 0, fun _ => Except.ok ⟨[]⟩, fun _ => Except.ok allNoneWeather⟩
      [⟨0, 0, 0⟩] =
      Except.ok { danger_frac := 0, quality := "✅ Alta", avg_weather_score := none } := by
  constructor
  · rfl
  · have hstate : (runPipeline ⟨50, 15, false, false, true⟩
        ⟨fun _ _ => 0, fun _ => Except.ok ⟨[]⟩, fun _ => Except.ok allNoneWeather⟩
        [⟨0, 0, 0⟩]).state = initState := by decide
    have hpoints : (runPipeline ⟨50, 15, false, false, true⟩
        ⟨fun _ _ => 0, fun _ => Except.ok ⟨[]⟩, fun _ => Except.ok allNoneWeather⟩
        [⟨0, 0, 0⟩]).points = [⟨0, 0, 0⟩] := by decide
    simp [analyzeReport, hstate, hpoints, initState, estimate_gps_quality]
    norm_num

end GPS
